import Mathlib

/-!
Shallow embedding of the order workflow of the Outlier-and-DA backend.

The repository contains several revisions of the order controller.  The two
that the claims cite are embedded here:

* `createOrder_p2` — the catalog-resolving revision (`src/unnamed/part_002`):
  line items are parsed from `orderDetails`, resolved against the product
  catalog by id and then by name, unresolvable entries are dropped, prices
  default through `item.price || product.price || 0`, and product images are
  associated with line items by original input index before filtering.
* `createOrderMain` — the memory-storage revision
  (`src/src/controllers/orderController.js`): required scalar fields and the
  payment image are validated before any S3 put, the payment upload is fatal
  on failure, failed product-image uploads yield `null` which is then
  filtered out of the URL list, and a malformed `orderDetails` string is a
  400 with no compensating deletes.
* `updateOrder` — shared by the revisions: a whitelist-free
  `findOneAndUpdate` merge followed by a stock/sold adjustment executed
  whenever the request body carries `status: "Delivered"`.

JavaScript truthiness on the fields the code tests (`x || d`, `!x`) is
modelled explicitly: a missing value or empty string is falsy, the number 0
is falsy.  AWS env values are opaque placeholder strings; they never affect
a claim.
-/

namespace OutlierDA

/-- JS falsiness for an optional string: absent or empty is falsy. -/
def isFalsyS : Option String → Bool
  | none => true
  | some s => s = ""

/-- JS `x || d` on optional strings producing a string. -/
def jsOrD : Option String → String → String
  | none, d => d
  | some s, d => if s = "" then d else s

/-- JS `x || d` on optional strings producing an optional string
(`null`/`undefined`/`""` fall through to the default). -/
def jsOrS : Option String → Option String → Option String
  | none, d => d
  | some s, d => if s = "" then d else some s

/-- JS `x || d` on an optional number: absent or `0` falls through. -/
def orFalsy : Option Nat → Nat → Nat
  | none, d => d
  | some 0, d => d
  | some n, _ => n

/-- Catalog product (`models/Product`): price, default image and the
stock/sold counters mutated by the delivery side effect. -/
structure Product where
  pid : String
  name : String
  price : Nat
  image : Option String
  stockQuantity : Int
  sold : Int
  deriving Repr, DecidableEq

/-- One entry of an order's `orderDetails` array as persisted. -/
structure LineItem where
  productId : String
  product : String
  quantity : Nat
  price : Nat
  productImage : Option String
  deriving Repr, DecidableEq

/-- Persisted order document (`models/Order`), timestamps omitted. -/
structure Order where
  id : Nat
  userId : String
  name : String
  amount : Int
  status : String
  phoneNumber : String
  deliveryAddress : String
  paymentImage : Option String
  orderDetails : List LineItem
  deriving Repr, DecidableEq

/-- Document store plus catalog visible to the controllers. -/
structure DB where
  catalog : List Product
  orders : List Order
  deriving Repr, DecidableEq

/-- Placeholder for `process.env.AWS_BUCKET_NAME`. -/
def awsBucket : String := "BUCKET"

/-- Placeholder for `process.env.AWS_REGION`. -/
def awsRegion : String := "REGION"

/-- The public URL the code builds for an S3 key. -/
def s3PublicUrl (key : String) : String :=
  "https://" ++ awsBucket ++ ".s3." ++ awsRegion ++ ".amazonaws.com/" ++ key

/-- `getImageUrl` of part_002: `null` for a falsy key, else the public URL. -/
def getImageUrl (key : String) : Option String :=
  if key = "" then none else some (s3PublicUrl key)

/-- A parsed element of the submitted `orderDetails` JSON array. -/
structure ItemIn where
  productId : Option String
  product : Option String
  quantity : Option Nat
  price : Option Nat
  productImage : Option String
  deriving Repr, DecidableEq

/-- Outcome of `JSON.parse` on the `orderDetails` body field. -/
inductive RawDetails where
  | malformed
  | parsed (items : List ItemIn)
  deriving Repr, DecidableEq

/-- Multipart submission reaching part_002's `createOrder` after the
multer-s3 middleware: image fields carry the S3 keys already written. -/
structure Submission where
  userId : Option String
  name : Option String
  amount : Option Int
  phoneNumber : Option String
  deliveryAddress : Option String
  status : Option String
  orderDetails : Option RawDetails
  paymentImage : Option String
  productImages : List String
  deriving Repr, DecidableEq

/-- Result of a create controller. -/
inductive CreateResult where
  | created (o : Order)
  | badRequest (msg : String)
  | serverError (msg : String)
  deriving Repr, DecidableEq

/-- `Product.findById(item.productId)`: `null` on a missing id. -/
def findById (cat : List Product) : Option String → Option Product
  | none => none
  | some pid => cat.find? (fun p => p.pid == pid)

/-- `Product.findOne({ name })`. -/
def findByName (cat : List Product) (nm : String) : Option Product :=
  cat.find? (fun p => p.name == nm)

/-- part_002's per-item resolution: by id first, then by name when the
submission carries a truthy `product` field. -/
def resolveItem (cat : List Product) (it : ItemIn) : Option Product :=
  match findById cat it.productId with
  | some p => some p
  | none =>
    match it.product with
    | some nm => if nm = "" then none else findByName cat nm
    | none => none

/-- Body of part_002's `orderDetails.map((item, index) => ...)`: `null` for
an unresolvable entry, else the filled-in line item, with the image chain
`productImages[index] || item.productImage || product.image || null`. -/
def processItem (cat : List Product) (urls : List (Option String)) (idx : Nat)
    (it : ItemIn) : Option LineItem :=
  match resolveItem cat it with
  | none => none
  | some p =>
    some {
      productId := p.pid
      product := p.name
      quantity := orFalsy it.quantity 1
      price := orFalsy it.price p.price
      productImage :=
        jsOrS ((urls.get? idx).join) (jsOrS it.productImage (jsOrS p.image none)) }

/-- The indexed map over the parsed entries (index 0-based from `idx`). -/
def processItems (cat : List Product) (urls : List (Option String)) :
    Nat → List ItemIn → List (Option LineItem)
  | _, [] => []
  | idx, it :: rest => processItem cat urls idx it :: processItems cat urls (idx + 1) rest

/-- part_002's line-item pipeline: map with original indices, then
`filter(item => item !== null)`. -/
def processDetails (cat : List Product) (urls : List (Option String))
    (items : List ItemIn) : List LineItem :=
  (processItems cat urls 0 items).filterMap id

/-- Largest `id` among stored orders (`findOne().sort({id:-1})`), 0 when none. -/
def maxOrderId (orders : List Order) : Nat :=
  (orders.map (fun o => o.id)).foldr max 0

/-- `lastOrder ? lastOrder.id + 1 : 1`. -/
def nextOrderId (orders : List Order) : Nat :=
  maxOrderId orders + 1

/-- part_002's `createOrder`: defaults for scalars, payment and product image
URLs from the middleware keys, parse/resolve/filter of `orderDetails`
(absent field leaves `[]`), max+1 id, unconditional insert. -/
def createOrder_p2 (db : DB) (sub : Submission) : CreateResult × DB :=
  let paymentImage : Option String :=
    match sub.paymentImage with
    | some key => getImageUrl key
    | none => none
  let productImageUrls := sub.productImages.map getImageUrl
  let mkOrder : List LineItem → CreateResult × DB := fun details =>
    let o : Order := {
      id := nextOrderId db.orders
      userId := jsOrD sub.userId "Unknown ID"
      name := jsOrD sub.name "Unknown"
      amount := sub.amount.getD 0
      status := jsOrD sub.status "Pending"
      phoneNumber := jsOrD sub.phoneNumber ""
      deliveryAddress := jsOrD sub.deliveryAddress ""
      paymentImage := paymentImage
      orderDetails := details }
    (CreateResult.created o, { db with orders := db.orders ++ [o] })
  match sub.orderDetails with
  | some RawDetails.malformed =>
    (CreateResult.badRequest "Invalid JSON format in orderDetails", db)
  | some (RawDetails.parsed items) =>
    mkOrder (processDetails db.catalog productImageUrls items)
  | none => mkOrder []

/-- `Order.findOneAndDelete({ id })`: removes the first matching order. -/
def deleteOrderById (orders : List Order) (oid : Nat) : List Order :=
  orders.eraseP (fun o => o.id == oid)

/-- An attached file in the memory-storage revision together with the
outcome S3 would give its upload: `some url` on success, `none` when the
put fails. -/
structure UpFile where
  uploadResult : Option String
  deriving Repr, DecidableEq

/-- A parsed element of `orderDetails` in the memory-storage revision
(its mapper reads only these four fields). -/
structure ItemM where
  productId : Option String
  product : Option String
  quantity : Option Nat
  price : Option Nat
  deriving Repr, DecidableEq

/-- Outcome of `JSON.parse` on the body field in the memory-storage
revision. -/
inductive RawDetailsM where
  | malformed
  | parsed (items : List ItemM)
  deriving Repr, DecidableEq

/-- Multipart submission reaching the memory-storage `createOrder`:
files are in memory, nothing has touched S3 yet. -/
structure SubM where
  userId : Option String
  name : Option String
  phoneNumber : Option String
  deliveryAddress : Option String
  orderDetails : Option RawDetailsM
  amount : Option Int
  status : Option String
  paymentImage : Option UpFile
  productImages : List UpFile
  deriving Repr, DecidableEq

/-- Controller outcome together with the S3 traffic it issued and the
resulting order collection. -/
structure OutM where
  result : CreateResult
  puts : Nat
  deletes : Nat
  orders : List Order
  deriving Repr, DecidableEq

/-- `requiredFields.filter(field => !req.body[field]).length > 0`: the five
required body fields of the memory-storage revision (`orderDetails` is a
string there; absent models both missing and empty). -/
def missingRequired (sub : SubM) : Bool :=
  isFalsyS sub.userId || isFalsyS sub.name || isFalsyS sub.phoneNumber ||
    isFalsyS sub.deliveryAddress || sub.orderDetails.isNone

/-- `JSON.parse(orderDetails).map` throws on the first entry with a falsy
`productId`, which the surrounding catch turns into the same 400. -/
def anyFalsyProductId (items : List ItemM) : Bool :=
  items.any (fun it => isFalsyS it.productId)

/-- One mapped entry of the memory-storage revision: defaults
`product || `Product n``, `quantity || 1`, `price || 0`, and
`productImageUrls[index] || null` over the already-filtered URL list. -/
def mkLineMain (urls : List String) (idx : Nat) (it : ItemM) : LineItem := {
  productId := it.productId.getD ""
  product := jsOrD it.product ("Product " ++ toString (idx + 1))
  quantity := orFalsy it.quantity 1
  price := orFalsy it.price 0
  productImage := jsOrS (urls.get? idx) none }

/-- The indexed `map` over the parsed entries of the memory-storage
revision. -/
def mapDetailsMain (urls : List String) : Nat → List ItemM → List LineItem
  | _, [] => []
  | idx, it :: rest => mkLineMain urls idx it :: mapDetailsMain urls (idx + 1) rest

/-- `createOrder` of `src/src/controllers/orderController.js`: required
fields, then payment-image presence, then the payment put (fatal on
failure), then one put per product image with per-file failures replaced by
`null` and subsequently filtered out, then parsing (a parse failure is a 400
issued after the puts with zero compensating deletes), then max+1 id and
insert.  The code never issues an S3 delete, so `deletes` is 0 on every
path. -/
def createOrderMain (orders : List Order) (sub : SubM) : OutM :=
  if missingRequired sub then
    { result := CreateResult.badRequest "Missing required fields",
      puts := 0, deletes := 0, orders := orders }
  else
    match sub.paymentImage with
    | none =>
      { result := CreateResult.badRequest "Payment image is required",
        puts := 0, deletes := 0, orders := orders }
    | some pf =>
      match pf.uploadResult with
      | none =>
        { result := CreateResult.serverError "Failed to process payment image",
          puts := 1, deletes := 0, orders := orders }
      | some payUrl =>
        let puts := 1 + sub.productImages.length
        let productImageUrls :=
          (sub.productImages.map (fun f => f.uploadResult)).filterMap id
        match sub.orderDetails with
        | none =>
          -- unreachable: guarded by the required-field check above
          { result := CreateResult.badRequest "Missing required fields",
            puts := puts, deletes := 0, orders := orders }
        | some RawDetailsM.malformed =>
          { result := CreateResult.badRequest "Invalid orderDetails format",
            puts := puts, deletes := 0, orders := orders }
        | some (RawDetailsM.parsed items) =>
          if anyFalsyProductId items then
            { result := CreateResult.badRequest "Invalid orderDetails format",
              puts := puts, deletes := 0, orders := orders }
          else
            let o : Order := {
              id := nextOrderId orders
              userId := jsOrD sub.userId ""
              name := jsOrD sub.name ""
              amount := sub.amount.getD 0
              status := jsOrD sub.status "Pending"
              phoneNumber := jsOrD sub.phoneNumber ""
              deliveryAddress := jsOrD sub.deliveryAddress ""
              paymentImage := some payUrl
              orderDetails := mapDetailsMain productImageUrls 0 items }
            { result := CreateResult.created o,
              puts := puts, deletes := 0, orders := orders ++ [o] }

/-- The caller-supplied update body: any subset of the order's fields, as
`findOneAndUpdate` receives it (no whitelist in the code). -/
structure OrderUpdate where
  id : Option Nat := none
  userId : Option String := none
  name : Option String := none
  amount : Option Int := none
  status : Option String := none
  phoneNumber : Option String := none
  deliveryAddress : Option String := none
  paymentImage : Option (Option String) := none
  orderDetails : Option (List LineItem) := none
  deriving Repr, DecidableEq

/-- The document-level merge `findOneAndUpdate` performs: every key present
in the update body overwrites the stored field. -/
def applyUpdate (u : OrderUpdate) (o : Order) : Order := {
  id := u.id.getD o.id
  userId := u.userId.getD o.userId
  name := u.name.getD o.name
  amount := u.amount.getD o.amount
  status := u.status.getD o.status
  phoneNumber := u.phoneNumber.getD o.phoneNumber
  deliveryAddress := u.deliveryAddress.getD o.deliveryAddress
  paymentImage := u.paymentImage.getD o.paymentImage
  orderDetails := u.orderDetails.getD o.orderDetails }

/-- Replace the first order with the given id (the single-document update). -/
def replaceFirst : List Order → Nat → Order → List Order
  | [], _, _ => []
  | o :: rest, oid, o' =>
    if o.id == oid then o' :: rest else o :: replaceFirst rest oid o'

/-- `product.save()` after mutating the document found by `findById`. -/
def saveProduct : List Product → Product → List Product
  | [], _ => []
  | p :: rest, p' =>
    if p.pid == p'.pid then p' :: rest else p :: saveProduct rest p'

/-- Loop body of the Delivered branch: find the product of one line item,
add its quantity to `sold`, subtract it from `stockQuantity`. -/
def applyDeliveryAdjustment (cat : List Product) (li : LineItem) : List Product :=
  match cat.find? (fun p => p.pid == li.productId) with
  | none => cat
  | some p =>
    saveProduct cat
      { p with sold := p.sold + li.quantity,
               stockQuantity := p.stockQuantity - li.quantity }

/-- The sequential `for (const item of order.orderDetails)` loop. -/
def applyDeliveryAdjustments : List Product → List LineItem → List Product
  | cat, [] => cat
  | cat, li :: rest => applyDeliveryAdjustments (applyDeliveryAdjustment cat li) rest

/-- Result of the update controller. -/
inductive UpdateResult where
  | ok (o : Order)
  | notFound
  deriving Repr, DecidableEq

/-- `updateOrder`: `findOneAndUpdate({id}, updates, {new: true})`, then,
whenever the request body itself says `status === "Delivered"` (no
comparison with the previous status), the stock/sold adjustment runs over
the updated order's `orderDetails`. -/
def updateOrder (db : DB) (oid : Nat) (u : OrderUpdate) : UpdateResult × DB :=
  match db.orders.find? (fun o => o.id == oid) with
  | none => (UpdateResult.notFound, db)
  | some o =>
    let o' := applyUpdate u o
    let db1 : DB := { db with orders := replaceFirst db.orders oid o' }
    if u.status == some "Delivered" then
      (UpdateResult.ok o',
        { db1 with catalog := applyDeliveryAdjustments db1.catalog o'.orderDetails })
    else
      (UpdateResult.ok o', db1)

/-- Projection: the id of a created order, if creation succeeded. -/
def createdId : CreateResult → Option Nat
  | CreateResult.created o => some o.id
  | _ => none

/-- Projection: the line items of a created order. -/
def createdDetails : CreateResult → Option (List LineItem)
  | CreateResult.created o => some o.orderDetails
  | _ => none

/-- Projection: the stored payment-proof reference of a created order. -/
def createdPayment : CreateResult → Option (Option String)
  | CreateResult.created o => some o.paymentImage
  | _ => none

/-- Projection: the product images of a created order, in line-item order. -/
def resultImages (out : OutM) : Option (List (Option String)) :=
  match out.result with
  | CreateResult.created o => some (o.orderDetails.map (fun li => li.productImage))
  | _ => none

/-- Stock counter of the product with the given id. -/
def stockOf (db : DB) (pid : String) : Option Int :=
  (db.catalog.find? (fun p => p.pid == pid)).map (fun p => p.stockQuantity)

/-- Sold counter of the product with the given id. -/
def soldOf (db : DB) (pid : String) : Option Int :=
  (db.catalog.find? (fun p => p.pid == pid)).map (fun p => p.sold)

/-- Concrete catalog product for the delivery scenario. -/
def c1Product : Product :=
  { pid := "p1", name := "Widget", price := 100, image := none,
    stockQuantity := 10, sold := 0 }

/-- Concrete line item ordering two units of that product. -/
def c1Line : LineItem :=
  { productId := "p1", product := "Widget", quantity := 2, price := 100,
    productImage := none }

/-- Concrete pending order holding that line item. -/
def c1Order : Order :=
  { id := 1, userId := "u1", name := "Alice", amount := 200,
    status := "Pending", phoneNumber := "0911", deliveryAddress := "addr",
    paymentImage := some "payurl", orderDetails := [c1Line] }

/-- Store for the delivery scenario: one product, one pending order. -/
def c1DB : DB := { catalog := [c1Product], orders := [c1Order] }

/-- The update body `{ status: "Delivered" }`. -/
def deliveredUpdate : OrderUpdate := { status := some "Delivered" }

/-- Submission with every required field, a payment proof and two product
images that all upload fine, but unparsable `orderDetails`. -/
def c2Sub : SubM :=
  { userId := some "u1", name := some "Alice", phoneNumber := some "0911",
    deliveryAddress := some "addr",
    orderDetails := some RawDetailsM.malformed,
    amount := some 50, status := none,
    paymentImage := some { uploadResult := some "payUrl" },
    productImages := [{ uploadResult := some "prodUrl1" },
                      { uploadResult := some "prodUrl2" }] }

/-- Minimal part_002 submission: no images, no `orderDetails` field. -/
def c3Sub : Submission :=
  { userId := some "u1", name := some "Alice", amount := some 10,
    phoneNumber := some "0911", deliveryAddress := some "addr",
    status := none, orderDetails := none,
    paymentImage := none, productImages := [] }

/-- Empty store to start the allocation scenario from. -/
def c3DB0 : DB := { catalog := [], orders := [] }

/-- First creation in the allocation scenario. -/
def c3Run1 : CreateResult × DB := createOrder_p2 c3DB0 c3Sub

/-- Second creation: allocates id 2. -/
def c3Run2 : CreateResult × DB := createOrder_p2 c3Run1.2 c3Sub

/-- The store after deleting the order with id 2. -/
def c3AfterDelete : DB :=
  { c3Run2.2 with orders := deleteOrderById c3Run2.2.orders 2 }

/-- Third creation, issued after the deletion. -/
def c3Run3 : CreateResult × DB := createOrder_p2 c3AfterDelete c3Sub

/-- Store holding one order with id 5, for the allocation witness. -/
def c3WDB : DB :=
  { catalog := [],
    orders := [{ c1Order with id := 5 }] }

/-- Submission with all required scalars, two attached product images, but
no payment-proof image. -/
def c4Sub : SubM :=
  { userId := some "u1", name := some "Alice", phoneNumber := some "0911",
    deliveryAddress := some "addr",
    orderDetails := some (RawDetailsM.parsed []),
    amount := some 50, status := none,
    paymentImage := none,
    productImages := [{ uploadResult := some "prodUrl1" },
                      { uploadResult := some "prodUrl2" }] }

/-- Catalog product `pa`, priced 300. -/
def c5ProdA : Product :=
  { pid := "pa", name := "Alpha", price := 300, image := none,
    stockQuantity := 5, sold := 0 }

/-- Catalog product `pc`, priced 700. -/
def c5ProdC : Product :=
  { pid := "pc", name := "Gamma", price := 700, image := none,
    stockQuantity := 5, sold := 0 }

/-- Catalog for the association and pricing scenarios: two resolvable
products; nothing matches the middle entry. -/
def c5Cat : List Product := [c5ProdA, c5ProdC]

/-- First submitted entry: resolves to product `pa`. -/
def c5Item0 : ItemIn :=
  { productId := some "pa", product := some "Alpha", quantity := some 1,
    price := none, productImage := none }

/-- Second submitted entry: resolves to no catalog product. -/
def c5Item1 : ItemIn :=
  { productId := some "ghost", product := some "Ghost", quantity := some 1,
    price := none, productImage := none }

/-- Third submitted entry: resolves to product `pc`. -/
def c5Item2 : ItemIn :=
  { productId := some "pc", product := some "Gamma", quantity := some 1,
    price := none, productImage := none }

/-- part_002 submission uploading three product images against the three
entries above. -/
def c5Sub : Submission :=
  { userId := some "u1", name := some "Alice", amount := some 10,
    phoneNumber := some "0911", deliveryAddress := some "addr",
    status := none,
    orderDetails := some (RawDetails.parsed [c5Item0, c5Item1, c5Item2]),
    paymentImage := some "payKey",
    productImages := ["k1", "k2", "k3"] }

/-- Store for the association scenario. -/
def c5DB : DB := { catalog := c5Cat, orders := [] }

/-- Entry declaring price 500 for the catalog product priced 300. -/
def c6ItemPriced : ItemIn :=
  { productId := some "pa", product := some "Alpha", quantity := some 2,
    price := some 500, productImage := none }

/-- The same entry without a price field. -/
def c6ItemUnpriced : ItemIn :=
  { productId := some "pa", product := some "Alpha", quantity := none,
    price := none, productImage := none }

/-- Parsed entries for the upload-failure scenario. -/
def c7Items : List ItemM :=
  [{ productId := some "pa", product := some "ItemA", quantity := some 1,
     price := some 10 },
   { productId := some "pb", product := some "ItemB", quantity := some 1,
     price := some 20 }]

/-- Payment file whose upload succeeds. -/
def c7Pf : UpFile := { uploadResult := some "payU" }

/-- Submission with two product images where the first upload fails and the
second succeeds. -/
def c7Sub : SubM :=
  { userId := some "u1", name := some "Alice", phoneNumber := some "0911",
    deliveryAddress := some "addr",
    orderDetails := some (RawDetailsM.parsed c7Items),
    amount := some 30, status := none,
    paymentImage := some c7Pf,
    productImages := [{ uploadResult := none }, { uploadResult := some "u2" }] }

/-- Submitted entries of the all-unresolvable scenario: one entry that no
catalog product matches. -/
def c8Items : List ItemIn :=
  [{ productId := some "ghost", product := some "Ghost",
     quantity := some 1, price := some 5, productImage := none }]

/-- part_002 submission whose single entry resolves to nothing. -/
def c8Sub : Submission :=
  { userId := some "u1", name := some "Alice", amount := some 10,
    phoneNumber := some "0911", deliveryAddress := some "addr",
    status := none,
    orderDetails := some (RawDetails.parsed c8Items),
    paymentImage := some "payKey",
    productImages := [] }

/-- Store with an empty catalog, so the entry above cannot resolve. -/
def c8DB : DB := { catalog := [], orders := [] }

/-- part_002 submission with every scalar present but no payment-proof
image attached. -/
def c9Sub : Submission :=
  { userId := some "u9", name := some "Bob", amount := some 10,
    phoneNumber := some "22", deliveryAddress := some "dd",
    status := none, orderDetails := none,
    paymentImage := none, productImages := [] }

/-- Store for the payment-proof scenarios. -/
def c9DB : DB := { catalog := [], orders := [] }

/-- The same submission with a payment-proof image attached. -/
def c9WSub : Submission := { c9Sub with paymentImage := some "payKey" }

/-- Update body overwriting id, userId, paymentImage, amount and
orderDetails in one call. -/
def mkFullUpdate (nid : Nat) (nuser : String) (npay : Option String)
    (namt : Int) (ndet : List LineItem) : OrderUpdate :=
  { id := some nid, userId := some nuser, paymentImage := some npay,
    amount := some namt, orderDetails := some ndet }

/-- Store with one order for the update-merge scenario. -/
def c10DB : DB := { catalog := [], orders := [c1Order] }

/-- C1: the code applies the stock/sold adjustment on every update whose
body says `status: "Delivered"`, not only on the transition edge: after a
first delivery of 2 units (stock 10 to 8, sold 0 to 2), re-sending the same
Delivered update decrements stock and increments sold again (stock 6,
sold 4), where the claim requires the counters to stay at 8 and 2. -/
theorem c1_delivery_adjustment_not_idempotent :
    stockOf (updateOrder c1DB 1 deliveredUpdate).2 "p1" = some 8 ∧
    soldOf (updateOrder c1DB 1 deliveredUpdate).2 "p1" = some 2 ∧
    stockOf (updateOrder (updateOrder c1DB 1 deliveredUpdate).2 1
      deliveredUpdate).2 "p1" = some 6 ∧
    soldOf (updateOrder (updateOrder c1DB 1 deliveredUpdate).2 1
      deliveredUpdate).2 "p1" = some 4 := by
  decide

/-- C2: on a submission whose `orderDetails` does not parse, after the
payment proof and 2 product images were uploaded (3 puts), the code answers
with the malformed-details error and persists no order, but issues 0
compensating blob deletes, not the 3 the claim requires. -/
theorem c2_parse_failure_no_compensation :
    (createOrderMain [] c2Sub).result =
        CreateResult.badRequest "Invalid orderDetails format" ∧
    (createOrderMain [] c2Sub).puts = 3 ∧
    (createOrderMain [] c2Sub).deletes = 0 ∧
    (createOrderMain [] c2Sub).orders = [] := by
  decide

/-- C3 counterexample: create two orders (ids 1 and 2), delete the order
with id 2, create again — the new order is assigned id 2, so a sequence id
of a previously created order is reused after its deletion. -/
theorem c3_sequence_id_reused :
    createdId c3Run2.1 = some 2 ∧ createdId c3Run3.1 = some 2 := by
  decide

/-- C7 counterexample: with two product images where upload 1 fails and
upload 2 succeeds, the order is created but the failed upload is filtered
out of the URL list, so line item 1 receives image 2 and line item 2
receives null; the claim instead requires null at position 1 and image 2 at
position 2. -/
theorem c7_failed_upload_images_shift :
    resultImages (createOrderMain [] c7Sub) = some [some "u2", none] ∧
    resultImages (createOrderMain [] c7Sub) ≠ some [none, some "u2"] := by
  decide

/-- C8 counterexample: a submission whose only entry resolves to no catalog
product is not rejected — the order is created with an empty line-item
sequence. -/
theorem c8_empty_order_created :
    createdDetails (createOrder_p2 c8DB c8Sub).1 = some [] := by
  decide

/-- C9 counterexample: a submission with no payment-proof image still
succeeds, persisting a null `paymentImage`. -/
theorem c9_success_with_null_payment_proof :
    createdPayment (createOrder_p2 c9DB c9Sub).1 = some none := by
  decide

/-- The URL built for an S3 key is never the empty string (it carries the
scheme prefix), so it is always JS-truthy. -/
theorem s3PublicUrl_ne_empty (key : String) : s3PublicUrl key ≠ "" := by
  intro h
  have h2 := congrArg String.length h
  simp only [s3PublicUrl, String.length_append] at h2
  have hl : ("https://" : String).length = 8 := rfl
  have h0 : ("" : String).length = 0 := rfl
  omega

/-- Every stored order's id is bounded by the running maximum. -/
theorem le_maxOrderId (orders : List Order) (p : Order) (hp : p ∈ orders) :
    p.id ≤ maxOrderId orders := by
  induction orders with
  | nil => cases hp
  | cons o rest ih =>
    have hco : maxOrderId (o :: rest) = max o.id (maxOrderId rest) := rfl
    cases hp with
    | head => rw [hco]; exact le_max_left _ _
    | tail _ h => rw [hco]; exact le_trans (ih h) (le_max_right _ _)

/-- The id handed to a new order strictly exceeds every stored id. -/
theorem lt_nextOrderId (orders : List Order) (p : Order) (hp : p ∈ orders) :
    p.id < nextOrderId orders := by
  have := le_maxOrderId orders p hp
  unfold nextOrderId
  omega

/-- Shape of part_002's create on a submission whose `orderDetails`
parses: it always succeeds, with the max+1 id, the payment URL built from
the attached key, and the resolved-and-filtered line items. -/
theorem createOrder_p2_parsed (db : DB) (sub : Submission) (items : List ItemIn)
    (h : sub.orderDetails = some (RawDetails.parsed items)) :
    ∃ o, (createOrder_p2 db sub).1 = CreateResult.created o ∧
      o.id = nextOrderId db.orders ∧
      o.paymentImage = (match sub.paymentImage with
        | some key => getImageUrl key
        | none => none) ∧
      o.orderDetails =
        processDetails db.catalog (sub.productImages.map getImageUrl) items ∧
      (createOrder_p2 db sub).2.orders = db.orders ++ [o] := by
  refine ⟨{ id := nextOrderId db.orders,
            userId := jsOrD sub.userId "Unknown ID",
            name := jsOrD sub.name "Unknown",
            amount := sub.amount.getD 0,
            status := jsOrD sub.status "Pending",
            phoneNumber := jsOrD sub.phoneNumber "",
            deliveryAddress := jsOrD sub.deliveryAddress "",
            paymentImage := match sub.paymentImage with
              | some key => getImageUrl key
              | none => none,
            orderDetails :=
              processDetails db.catalog (sub.productImages.map getImageUrl) items },
          ?_, rfl, rfl, rfl, ?_⟩
  · simp [createOrder_p2, h]
  · simp [createOrder_p2, h]

/-- Shape of part_002's create on a submission without an `orderDetails`
field: it succeeds with an empty line-item list. -/
theorem createOrder_p2_noDetails (db : DB) (sub : Submission)
    (h : sub.orderDetails = none) :
    ∃ o, (createOrder_p2 db sub).1 = CreateResult.created o ∧
      o.id = nextOrderId db.orders ∧
      o.paymentImage = (match sub.paymentImage with
        | some key => getImageUrl key
        | none => none) ∧
      o.orderDetails = [] ∧
      (createOrder_p2 db sub).2.orders = db.orders ++ [o] := by
  refine ⟨{ id := nextOrderId db.orders,
            userId := jsOrD sub.userId "Unknown ID",
            name := jsOrD sub.name "Unknown",
            amount := sub.amount.getD 0,
            status := jsOrD sub.status "Pending",
            phoneNumber := jsOrD sub.phoneNumber "",
            deliveryAddress := jsOrD sub.deliveryAddress "",
            paymentImage := match sub.paymentImage with
              | some key => getImageUrl key
              | none => none,
            orderDetails := [] },
          ?_, rfl, rfl, rfl, ?_⟩
  · simp [createOrder_p2, h]
  · simp [createOrder_p2, h]

/-- When every entry is unresolvable, the indexed map yields only `null`
entries, so the filter leaves nothing, whatever the start index. -/
theorem processItems_filterMap_nil (cat : List Product) (urls : List (Option String)) :
    ∀ (items : List ItemIn), (∀ it ∈ items, resolveItem cat it = none) →
      ∀ idx, (processItems cat urls idx items).filterMap id = [] := by
  intro items
  induction items with
  | nil => intro _ idx; rfl
  | cons it rest ih =>
    intro h idx
    have h1 : resolveItem cat it = none := h it (List.mem_cons_self it rest)
    have h2 : ∀ x ∈ rest, resolveItem cat x = none :=
      fun x hx => h x (List.mem_cons_of_mem it hx)
    simp [processItems, processItem, h1, ih h2 (idx + 1)]

/-- part_002's line-item pipeline gives the empty list when no entry
resolves. -/
theorem processDetails_all_unresolved (cat : List Product)
    (urls : List (Option String)) (items : List ItemIn)
    (h : ∀ it ∈ items, resolveItem cat it = none) :
    processDetails cat urls items = [] :=
  processItems_filterMap_nil cat urls items h 0

/-- The indexed map of the memory-storage revision, read positionally: the
element at position i exists and is built from the input entry at i with
running index idx + i. -/
theorem mapDetailsMain_get (urls : List String) :
    ∀ (items : List ItemM) (idx i : Nat), i < items.length →
      ∃ it, items.get? i = some it ∧
        (mapDetailsMain urls idx items).get? i =
          some (mkLineMain urls (idx + i) it) := by
  intro items
  induction items with
  | nil => intro idx i h; simp at h
  | cons it rest ih =>
    intro idx i h
    cases i with
    | zero => exact ⟨it, rfl, by simp [mapDetailsMain]⟩
    | succ n =>
      have hn : n < rest.length := by simpa using h
      obtain ⟨x, hx1, hx2⟩ := ih (idx + 1) n hn
      refine ⟨x, by simpa using hx1, ?_⟩
      have hidx : idx + (n + 1) = (idx + 1) + n := by omega
      rw [hidx]
      simpa [mapDetailsMain] using hx2

/-- C3 (amended): every successful creation is assigned the maximum
existing id plus 1 (1 on an empty store), so the new id strictly exceeds
every id currently stored; uniqueness therefore holds among live orders and
in deletion-free runs, but an id may be reissued after the highest-id order
is deleted (see the counterexample). -/
theorem c3_fresh_id_allocation (db : DB) (sub : Submission)
    (hd : sub.orderDetails ≠ some RawDetails.malformed) :
    ∃ o, (createOrder_p2 db sub).1 = CreateResult.created o ∧
      o.id = nextOrderId db.orders ∧
      ∀ p ∈ db.orders, p.id < o.id := by
  cases h : sub.orderDetails with
  | none =>
    obtain ⟨o, h1, h2, -, -, -⟩ := createOrder_p2_noDetails db sub h
    exact ⟨o, h1, h2, fun p hp => h2 ▸ lt_nextOrderId db.orders p hp⟩
  | some rd =>
    cases rd with
    | malformed => exact absurd h hd
    | parsed items =>
      obtain ⟨o, h1, h2, -, -, -⟩ := createOrder_p2_parsed db sub items h
      exact ⟨o, h1, h2, fun p hp => h2 ▸ lt_nextOrderId db.orders p hp⟩

/-- C3 witness: creating against a store whose only order has id 5 yields
id 6, larger than every stored id. -/
theorem c3_fresh_id_allocation_witness :
    c3Sub.orderDetails ≠ some RawDetails.malformed ∧
    (∃ o, (createOrder_p2 c3WDB c3Sub).1 = CreateResult.created o ∧
      o.id = nextOrderId c3WDB.orders ∧
      ∀ p ∈ c3WDB.orders, p.id < o.id) :=
  ⟨by decide, c3_fresh_id_allocation c3WDB c3Sub (by decide)⟩

/-- C4: a submission whose required scalar fields are all present but which
attaches no payment-proof image is rejected with the payment-image error
before any S3 put is issued — zero uploads, zero deletes, store
unchanged — even when product images are attached. -/
theorem c4_payment_check_before_uploads (orders : List Order) (sub : SubM)
    (hreq : missingRequired sub = false) (hpay : sub.paymentImage = none) :
    (createOrderMain orders sub).result =
        CreateResult.badRequest "Payment image is required" ∧
    (createOrderMain orders sub).puts = 0 ∧
    (createOrderMain orders sub).deletes = 0 ∧
    (createOrderMain orders sub).orders = orders := by
  simp [createOrderMain, hreq, hpay]

/-- C4 witness: the concrete submission with all scalars, two attached
product images and no payment proof performs zero uploads. -/
theorem c4_payment_check_before_uploads_witness :
    missingRequired c4Sub = false ∧ c4Sub.paymentImage = none ∧
    ((createOrderMain [] c4Sub).result =
        CreateResult.badRequest "Payment image is required" ∧
     (createOrderMain [] c4Sub).puts = 0 ∧
     (createOrderMain [] c4Sub).deletes = 0 ∧
     (createOrderMain [] c4Sub).orders = []) :=
  ⟨by decide, rfl, c4_payment_check_before_uploads [] c4Sub (by decide) rfl⟩

/-- C5: with three uploaded product images and three submitted entries of
which the middle one fails catalog resolution, the created order has
exactly two line items, the first carrying image 1 and the second carrying
image 3: the image index is the original input position, fixed before the
unresolvable entry is filtered out. -/
theorem c5_positional_image_association (db : DB) (sub : Submission)
    (i0 i1 i2 : ItemIn) (p0 p2 : Product) (k1 k2 k3 : String)
    (h0 : resolveItem db.catalog i0 = some p0)
    (h1 : resolveItem db.catalog i1 = none)
    (h2 : resolveItem db.catalog i2 = some p2)
    (hk1 : k1 ≠ "") (hk3 : k3 ≠ "")
    (hod : sub.orderDetails = some (RawDetails.parsed [i0, i1, i2]))
    (himg : sub.productImages = [k1, k2, k3]) :
    ∃ o l0 l2, (createOrder_p2 db sub).1 = CreateResult.created o ∧
      o.orderDetails = [l0, l2] ∧
      l0.productId = p0.pid ∧ l0.productImage = some (s3PublicUrl k1) ∧
      l2.productId = p2.pid ∧ l2.productImage = some (s3PublicUrl k3) := by
  obtain ⟨o, ho1, -, -, ho4, -⟩ := createOrder_p2_parsed db sub [i0, i1, i2] hod
  rw [himg] at ho4
  simp only [List.map_cons, List.map_nil] at ho4
  have e0 : processItem db.catalog [getImageUrl k1, getImageUrl k2, getImageUrl k3] 0 i0 =
      some { productId := p0.pid, product := p0.name,
             quantity := orFalsy i0.quantity 1,
             price := orFalsy i0.price p0.price,
             productImage := some (s3PublicUrl k1) } := by
    simp [processItem, h0, getImageUrl, hk1, jsOrS, s3PublicUrl_ne_empty]
  have e1 : processItem db.catalog [getImageUrl k1, getImageUrl k2, getImageUrl k3] 1 i1 = none := by
    simp [processItem, h1]
  have e2 : processItem db.catalog [getImageUrl k1, getImageUrl k2, getImageUrl k3] 2 i2 =
      some { productId := p2.pid, product := p2.name,
             quantity := orFalsy i2.quantity 1,
             price := orFalsy i2.price p2.price,
             productImage := some (s3PublicUrl k3) } := by
    simp [processItem, h2, getImageUrl, hk3, jsOrS, s3PublicUrl_ne_empty]
  have ed : processDetails db.catalog [getImageUrl k1, getImageUrl k2, getImageUrl k3] [i0, i1, i2] =
      [{ productId := p0.pid, product := p0.name,
         quantity := orFalsy i0.quantity 1,
         price := orFalsy i0.price p0.price,
         productImage := some (s3PublicUrl k1) },
       { productId := p2.pid, product := p2.name,
         quantity := orFalsy i2.quantity 1,
         price := orFalsy i2.price p2.price,
         productImage := some (s3PublicUrl k3) }] := by
    simp [processDetails, processItems, e0, e1, e2]
  exact ⟨o, _, _, ho1, ho4.trans ed, rfl, rfl, rfl, rfl⟩

/-- C5 witness: the concrete scenario — catalog resolving entries 1 and 3
but not entry 2, image keys k1, k2, k3 — attaches image 1 to the first
surviving item and image 3 to the second. -/
theorem c5_positional_image_association_witness :
    resolveItem c5DB.catalog c5Item0 = some c5ProdA ∧
    resolveItem c5DB.catalog c5Item1 = none ∧
    resolveItem c5DB.catalog c5Item2 = some c5ProdC ∧
    (∃ o l0 l2, (createOrder_p2 c5DB c5Sub).1 = CreateResult.created o ∧
      o.orderDetails = [l0, l2] ∧
      l0.productId = c5ProdA.pid ∧ l0.productImage = some (s3PublicUrl "k1") ∧
      l2.productId = c5ProdC.pid ∧ l2.productImage = some (s3PublicUrl "k3")) :=
  ⟨rfl, rfl, rfl,
    c5_positional_image_association c5DB c5Sub c5Item0 c5Item1 c5Item2
      c5ProdA c5ProdC "k1" "k2" "k3" rfl rfl rfl
      (by decide) (by decide) rfl rfl⟩

/-- C6: for an entry that resolves to catalog product p, the persisted
quantity defaults to 1 when absent and keeps a nonzero submitted value,
and the persisted unit price keeps a nonzero submitted value (client price
wins over the catalog) while a missing or zero submitted price falls back
to the catalog price. -/
theorem c6_price_quantity_policy (cat : List Product) (urls : List (Option String))
    (idx : Nat) (it : ItemIn) (p : Product)
    (h : resolveItem cat it = some p) :
    ∃ li, processItem cat urls idx it = some li ∧
      (it.quantity = none → li.quantity = 1) ∧
      (∀ q, it.quantity = some q → q ≠ 0 → li.quantity = q) ∧
      (it.price = none → li.price = p.price) ∧
      (it.price = some 0 → li.price = p.price) ∧
      (∀ c, it.price = some c → c ≠ 0 → li.price = c) := by
  refine ⟨{ productId := p.pid, product := p.name,
            quantity := orFalsy it.quantity 1,
            price := orFalsy it.price p.price,
            productImage := jsOrS ((urls.get? idx).join)
              (jsOrS it.productImage (jsOrS p.image none)) },
          by simp [processItem, h], ?_, ?_, ?_, ?_, ?_⟩
  · intro hq
    simp [hq, orFalsy]
  · intro q hq hq0
    rw [hq]
    cases q with
    | zero => exact absurd rfl hq0
    | succ n => rfl
  · intro hc
    simp [hc, orFalsy]
  · intro hc
    simp [hc, orFalsy]
  · intro c hc hc0
    rw [hc]
    cases c with
    | zero => exact absurd rfl hc0
    | succ n => rfl

/-- C6 witness: against catalog price 300, submitted price 500 persists as
500; the theorem's other conjuncts give the catalog fallback for an absent
price. -/
theorem c6_price_quantity_policy_witness :
    resolveItem c5Cat c6ItemPriced = some c5ProdA ∧
    (∃ li, processItem c5Cat [] 0 c6ItemPriced = some li ∧
      (c6ItemPriced.quantity = none → li.quantity = 1) ∧
      (∀ q, c6ItemPriced.quantity = some q → q ≠ 0 → li.quantity = q) ∧
      (c6ItemPriced.price = none → li.price = c5ProdA.price) ∧
      (c6ItemPriced.price = some 0 → li.price = c5ProdA.price) ∧
      (∀ c, c6ItemPriced.price = some c → c ≠ 0 → li.price = c)) :=
  ⟨rfl, c6_price_quantity_policy c5Cat [] 0 c6ItemPriced c5ProdA rfl⟩

/-- C6 second scenario, evaluated: no price field submitted for the same
product persists the catalog price 300, and the priced entry persists
500. -/
theorem c6_price_scenarios :
    (processItem c5Cat [] 0 c6ItemPriced).map (fun li => li.price) = some 500 ∧
    (processItem c5Cat [] 0 c6ItemUnpriced).map (fun li => li.price) = some 300 ∧
    (processItem c5Cat [] 0 c6ItemUnpriced).map (fun li => li.quantity) = some 1 := by
  decide

/-- C7 (amended): a failed product-image upload does not abort order
creation and the payment-proof upload failure stays fatal, but failed
uploads are filtered out of the URL list before association, so the i-th
line item receives the i-th successful upload URL (images shift up past
failed positions) and trailing line items receive null. -/
theorem c7_upload_failure_tolerated (orders : List Order) (sub : SubM)
    (items : List ItemM) (pf : UpFile)
    (hreq : missingRequired sub = false)
    (hod : sub.orderDetails = some (RawDetailsM.parsed items))
    (hids : anyFalsyProductId items = false)
    (hpay : sub.paymentImage = some pf) :
    (pf.uploadResult = none →
      (createOrderMain orders sub).result =
        CreateResult.serverError "Failed to process payment image" ∧
      (createOrderMain orders sub).orders = orders) ∧
    (∀ url, pf.uploadResult = some url →
      ∃ o, (createOrderMain orders sub).result = CreateResult.created o ∧
        ∀ i, i < items.length → ∃ li, o.orderDetails.get? i = some li ∧
          li.productImage = jsOrS
            (((sub.productImages.map (fun f => f.uploadResult)).filterMap id).get? i)
            none) := by
  constructor
  · intro hnone
    simp [createOrderMain, hreq, hpay, hnone]
  · intro url hurl
    refine ⟨{ id := nextOrderId orders,
              userId := jsOrD sub.userId "",
              name := jsOrD sub.name "",
              amount := sub.amount.getD 0,
              status := jsOrD sub.status "Pending",
              phoneNumber := jsOrD sub.phoneNumber "",
              deliveryAddress := jsOrD sub.deliveryAddress "",
              paymentImage := some url,
              orderDetails := mapDetailsMain
                ((sub.productImages.map (fun f => f.uploadResult)).filterMap id)
                0 items },
            ?_, ?_⟩
    · simp [createOrderMain, hreq, hpay, hurl, hod, hids]
    · intro i hi
      obtain ⟨it, -, h2⟩ := mapDetailsMain_get
        ((sub.productImages.map (fun f => f.uploadResult)).filterMap id)
        items 0 i hi
      refine ⟨mkLineMain
        ((sub.productImages.map (fun f => f.uploadResult)).filterMap id)
        (0 + i) it, h2, ?_⟩
      simp [mkLineMain]

/-- C7 amended witness: the two-image submission with upload 1 failed and
upload 2 successful still creates the order, each line item tied to the
successful URLs in shifted order. -/
theorem c7_upload_failure_tolerated_witness :
    missingRequired c7Sub = false ∧
    anyFalsyProductId c7Items = false ∧
    ((c7Pf.uploadResult = none →
      (createOrderMain [] c7Sub).result =
        CreateResult.serverError "Failed to process payment image" ∧
      (createOrderMain [] c7Sub).orders = []) ∧
    (∀ url, c7Pf.uploadResult = some url →
      ∃ o, (createOrderMain [] c7Sub).result = CreateResult.created o ∧
        ∀ i, i < c7Items.length → ∃ li, o.orderDetails.get? i = some li ∧
          li.productImage = jsOrS
            (((c7Sub.productImages.map (fun f => f.uploadResult)).filterMap id).get? i)
            none)) :=
  ⟨by decide, by decide,
    c7_upload_failure_tolerated [] c7Sub c7Items c7Pf (by decide) rfl
      (by decide) rfl⟩

/-- C8 (amended): an entry resolving to no catalog product is dropped
without failing the order, but when every entry fails to resolve the order
is still created, persisted with an empty line-item sequence — there is no
rejection of all-unresolvable submissions. -/
theorem c8_all_unresolved_still_creates (db : DB) (sub : Submission)
    (items : List ItemIn)
    (hod : sub.orderDetails = some (RawDetails.parsed items))
    (hall : ∀ it ∈ items, resolveItem db.catalog it = none) :
    ∃ o, (createOrder_p2 db sub).1 = CreateResult.created o ∧
      o.orderDetails = [] ∧
      (createOrder_p2 db sub).2.orders = db.orders ++ [o] := by
  obtain ⟨o, h1, -, -, h4, h5⟩ := createOrder_p2_parsed db sub items hod
  refine ⟨o, h1, ?_, h5⟩
  rw [h4]
  exact processDetails_all_unresolved db.catalog
    (sub.productImages.map getImageUrl) items hall

/-- C8 amended witness: the submission whose only entry is unresolvable is
still persisted, with empty line items. -/
theorem c8_all_unresolved_still_creates_witness :
    (∀ it ∈ c8Items, resolveItem c8DB.catalog it = none) ∧
    (∃ o, (createOrder_p2 c8DB c8Sub).1 = CreateResult.created o ∧
      o.orderDetails = [] ∧
      (createOrder_p2 c8DB c8Sub).2.orders = c8DB.orders ++ [o]) :=
  ⟨by decide, c8_all_unresolved_still_creates c8DB c8Sub c8Items rfl (by decide)⟩

/-- C9 (amended): whenever the submission attaches a payment-proof image
(a truthy S3 key), the created order's paymentImage is the non-null public
URL of that key; a submission without one still succeeds but stores null
(see the counterexample). -/
theorem c9_nonnull_payment_when_attached (db : DB) (sub : Submission)
    (key : String) (hk : key ≠ "") (hp : sub.paymentImage = some key)
    (hd : sub.orderDetails ≠ some RawDetails.malformed) :
    ∃ o, (createOrder_p2 db sub).1 = CreateResult.created o ∧
      o.paymentImage = some (s3PublicUrl key) := by
  cases h : sub.orderDetails with
  | none =>
    obtain ⟨o, h1, -, h3, -, -⟩ := createOrder_p2_noDetails db sub h
    refine ⟨o, h1, ?_⟩
    rw [h3, hp]
    simp [getImageUrl, hk]
  | some rd =>
    cases rd with
    | malformed => exact absurd h hd
    | parsed items =>
      obtain ⟨o, h1, -, h3, -, -⟩ := createOrder_p2_parsed db sub items h
      refine ⟨o, h1, ?_⟩
      rw [h3, hp]
      simp [getImageUrl, hk]

/-- C9 amended witness: with key payKey attached the created order stores
its public URL. -/
theorem c9_nonnull_payment_when_attached_witness :
    ("payKey" : String) ≠ "" ∧ c9WSub.paymentImage = some "payKey" ∧
    (∃ o, (createOrder_p2 c9DB c9WSub).1 = CreateResult.created o ∧
      o.paymentImage = some (s3PublicUrl "payKey")) :=
  ⟨by decide, rfl,
    c9_nonnull_payment_when_attached c9DB c9WSub "payKey" (by decide) rfl
      (by decide)⟩

/-- C10: the update controller applies every key of the caller-supplied
body with no whitelist: for any stored order and any choice of new values,
a single update call overwrites id, userId, paymentImage, amount and
orderDetails simultaneously, so no field of an existing order is guaranteed
unchanged across an update. -/
theorem c10_update_applies_all_fields (db : DB) (oid : Nat) (o : Order)
    (hfind : db.orders.find? (fun x => x.id == oid) = some o)
    (nid : Nat) (nuser : String) (npay : Option String) (namt : Int)
    (ndet : List LineItem) :
    ∃ u : OrderUpdate, ∃ o2, (updateOrder db oid u).1 = UpdateResult.ok o2 ∧
      o2.id = nid ∧ o2.userId = nuser ∧ o2.paymentImage = npay ∧
      o2.amount = namt ∧ o2.orderDetails = ndet := by
  refine ⟨mkFullUpdate nid nuser npay namt ndet,
          applyUpdate (mkFullUpdate nid nuser npay namt ndet) o,
          ?_, rfl, rfl, rfl, rfl, rfl⟩
  simp [updateOrder, hfind, mkFullUpdate]

/-- C10 witness: one update call rewrites the stored order's id to 42,
its userId, its payment image, its amount and its line items at once. -/
theorem c10_update_applies_all_fields_witness :
    c10DB.orders.find? (fun x => x.id == 1) = some c1Order ∧
    (∃ u : OrderUpdate, ∃ o2, (updateOrder c10DB 1 u).1 = UpdateResult.ok o2 ∧
      o2.id = 42 ∧ o2.userId = "other" ∧ o2.paymentImage = none ∧
      o2.amount = 0 ∧ o2.orderDetails = []) :=
  ⟨rfl, c10_update_applies_all_fields c10DB 1 c1Order rfl 42 "other" none 0 []⟩

end OutlierDA
